import Mathlib

/-!
# Verification of the attendance backend sync core

A shallow embedding of `app/main.py` (the `sync_push` and `bootstrap`
endpoints), `app/models.py` (the entity rows and associated schema
constraints, including the `course_id NOT NULL` column on `attendance`
introduced by migration `0005_add_course_id_to_attendance`) and the
payload-handling conventions of `app/schemas.py`.

Modelling conventions:
* JSON payload values are modelled by `Value` (null, string, integer,
  boolean), with Python truthiness as `truthy`.
* `datetime` values are seconds (an `Int`); `datetime.fromisoformat` is
  `parseIso` and `timedelta(hours=1)` is `3600`.
* The SQLAlchemy session is `Db`: a `committed` store, a `current` store
  holding committed rows plus pending (added/flushed/mutated but
  uncommitted) rows, and the id sequences (which, like database
  sequences, are not rolled back).  Queries read `current` (SQLAlchemy
  autoflush makes pending rows visible), `db.commit()` is
  `commitRollback`/`commitE` (promote `current` after checking the
  schema constraint the claims exercise: `attendance.course_id NOT
  NULL`), and `db.rollback()` restores `current` from `committed`.
* Exceptions are modelled by `Except String`; the per-operation
  `except` handlers of `sync_push` turn them into failed results as the
  code does (`SQLAlchemyError` with a rollback, anything else without).
-/

namespace AttBack

/-- A JSON/Python payload value as it reaches `sync_push`. -/
inductive Value where
  | vnone : Value
  | vstr (s : String) : Value
  | vint (n : Int) : Value
  | vbool (b : Bool) : Value
deriving DecidableEq, Repr

/-- Python truthiness, as used by `if not value:` checks in `main.py`. -/
def truthy : Value → Bool
  | Value.vnone => false
  | Value.vstr s => !(s == "")
  | Value.vint n => !(n == 0)
  | Value.vbool b => b

/-- A payload: the `payload: dict` of a sync operation. -/
abbrev Payload := List (String × Value)

/-- `payload.get(key, default)`. -/
def pgetD (p : Payload) (key : String) (dflt : Value) : Value :=
  match List.find? (fun kv => kv.1 == key) p with
  | some kv => kv.2
  | none => dflt

/-- `payload.get(key)` (default `None`). -/
def pget (p : Payload) (key : String) : Value :=
  pgetD p key Value.vnone

/-- The ASCII whitespace characters Python `int()` strips from a
string argument: tab, LF, VT, FF, CR and space. -/
def isSpaceChar (c : Char) : Bool :=
  c == ' ' || c == '\t' || c == '\n' || c == '\r' || c.toNat == 11 || c.toNat == 12

/-- Strip leading and trailing whitespace from a character list. -/
def trimChars (cs : List Char) : List Char :=
  ((cs.dropWhile isSpaceChar).reverse.dropWhile isSpaceChar).reverse

/-- The digit tail of a Python integer literal after its first digit:
further digits, each optionally preceded by a single grouping
underscore (PEP 515).  A leading, trailing, or doubled underscore is
rejected, exactly as `int()` rejects it. -/
def decDigitsU : Nat → List Char → Option Nat
  | acc, [] => some acc
  | _, ['_'] => none
  | acc, '_' :: c :: rest =>
    if c.isDigit then decDigitsU (acc * 10 + (c.toNat - 48)) rest else none
  | acc, c :: rest =>
    if c.isDigit then decDigitsU (acc * 10 + (c.toNat - 48)) rest else none

/-- An unsigned Python integer literal: a digit followed by digits with
optional single grouping underscores between them. -/
def parseDecCore : List Char → Option Nat
  | c :: rest => if c.isDigit then decDigitsU (c.toNat - 48) rest else none
  | [] => none

/-- Python `int(s)`: optional surrounding whitespace, an optional sign,
then decimal digits with optional single grouping underscores between
digits (PEP 515).  This is exact for ASCII strings (the scope the
theorems use, stated via `isAsciiStr`); `int()` additionally maps
non-ASCII decimal digits and non-ASCII whitespace to their ASCII
counterparts before parsing, which is not modelled. -/
def parseDec (s : String) : Option Int :=
  match trimChars s.toList with
  | '-' :: rest => Option.map (fun n => -(n : Int)) (parseDecCore rest)
  | '+' :: rest => Option.map (fun n => (n : Int)) (parseDecCore rest)
  | cs => Option.map (fun n => (n : Int)) (parseDecCore cs)

/-- Every character of the string is ASCII: the domain on which
`parseDec` agrees with Python `int()` exactly. -/
def isAsciiStr (s : String) : Bool :=
  s.toList.all (fun c => c.toNat < 128)

/-- The message of the `ValueError` raised by `int()` on a bad string. -/
def intErrMsg (s : String) : String :=
  "invalid literal for int with base 10: " ++ s

/-- The message of the `TypeError` raised by `int(None)`. -/
def intNoneMsg : String :=
  "int argument must be a string or a number, not NoneType"

/-- The message of the `AttributeError` raised by `.replace` on a
non-string timestamp value. -/
def attrErrMsg : String :=
  "timestamp value has no attribute replace"

/-- Python `int(value)` for the payload values `sync_push` converts. -/
def toIntE : Value → Except String Int
  | Value.vint n => Except.ok n
  | Value.vbool b => Except.ok (if b then 1 else 0)
  | Value.vstr s =>
    match parseDec s with
    | some n => Except.ok n
    | none => Except.error (intErrMsg s)
  | Value.vnone => Except.error intNoneMsg

/-- Days since 1970-01-01 of a proleptic-Gregorian civil date. -/
def daysFromCivil (y : Int) (m d : Nat) : Int :=
  let yAdj : Int := if m ≤ 2 then y - 1 else y
  let era : Int := (if 0 ≤ yAdj then yAdj else yAdj - 399) / 400
  let yoe : Int := yAdj - era * 400
  let mp : Int := if 2 < m then (m : Int) - 3 else (m : Int) + 9
  let doy : Int := (153 * mp + 2) / 5 + (d : Int) - 1
  let doe : Int := yoe * 365 + yoe / 4 - yoe / 100 + doy
  era * 146097 + doe - 719468

/-- Value of a two-digit field, `none` unless both are digits. -/
def twoDigits (a b : Char) : Option Nat :=
  if a.isDigit && b.isDigit then some ((a.toNat - 48) * 10 + (b.toNat - 48))
  else none

/-- Gregorian leap-year rule, as `datetime` applies it. -/
def isLeapYear (y : Nat) : Bool :=
  (y % 4 == 0 && y % 100 != 0) || y % 400 == 0

/-- Days in a month, used by `fromisoformat` day validation. -/
def daysInMonth (y m : Nat) : Nat :=
  if m == 2 then (if isLeapYear y then 29 else 28)
  else if m == 4 || m == 6 || m == 9 || m == 11 then 30
  else 31

/-- Seconds since epoch for date `ymd`, time-of-day and UTC offset. -/
def isoSeconds (y : Int) (mo d h mi se : Nat) (offMin : Int) : Int :=
  daysFromCivil y mo d * 86400 + (h : Int) * 3600 + (mi : Int) * 60 + (se : Int)
    - offMin * 60

/-- Parse the optional `+HH:MM` / `-HH:MM` offset suffix, returning the
offset in minutes.  `fromisoformat` requires the resulting offset to be
strictly between -24 and +24 hours (the minute field itself may exceed
59 and is carried into hours, e.g. `+00:60` is `+01:00`). -/
def parseOffset (cs : List Char) : Option Int :=
  match cs with
  | [] => some 0
  | ['+', o1, o2, ':', o3, o4] =>
    match twoDigits o1 o2, twoDigits o3 o4 with
    | some oh, some om =>
      if oh * 60 + om < 1440 then some ((oh : Int) * 60 + (om : Int)) else none
    | _, _ => none
  | ['-', o1, o2, ':', o3, o4] =>
    match twoDigits o1 o2, twoDigits o3 o4 with
    | some oh, some om =>
      if oh * 60 + om < 1440 then some (-((oh : Int) * 60 + (om : Int))) else none
    | _, _ => none
  | _ => none

/-- Parse the time-of-day-and-offset part following the date (the
separator before the hour may be any single character, as in
`fromisoformat`). -/
def parseTimePart (y : Int) (mo d : Nat) (cs : List Char) : Option Int :=
  match cs with
  | [] => some (isoSeconds y mo d 0 0 0 0)
  | _sep :: h1 :: h2 :: ':' :: m1 :: m2 :: rest =>
    match twoDigits h1 h2, twoDigits m1 m2 with
    | some h, some mi =>
      if h < 24 && mi < 60 then
        match rest with
        | ':' :: s1 :: s2 :: rest2 =>
          match twoDigits s1 s2 with
          | some se =>
            if se < 60 then
              Option.map (fun off => isoSeconds y mo d h mi se off)
                (parseOffset rest2)
            else none
          | none => none
        | _ =>
          Option.map (fun off => isoSeconds y mo d h mi 0 off)
            (parseOffset rest)
      else none
    | _, _ => none
  | _ => none

/-- `datetime.fromisoformat` for the shapes the app exchanges:
`YYYY-MM-DD`, optionally followed by `*HH:MM[:SS]` and an explicit
`+HH:MM`/`-HH:MM` offset (the caller has already replaced a trailing
`Z` by `+00:00`), validated as `datetime` validates: year at least 1,
month 1-12, day within the month (Gregorian leap rule), hour below 24,
minute and second below 60, offset strictly below 24 hours.  Formats
outside this shape (fractional seconds, basic format without dashes)
are not modelled and map to an error.  Result is seconds since
epoch. -/
def parseIso (s : String) : Except String Int :=
  let bad : Except String Int := Except.error ("Invalid isoformat string: " ++ s)
  match s.toList with
  | y1 :: y2 :: y3 :: y4 :: '-' :: m1 :: m2 :: '-' :: d1 :: d2 :: rest =>
    match twoDigits y1 y2, twoDigits y3 y4, twoDigits m1 m2, twoDigits d1 d2 with
    | some yh, some yl, some mo, some d =>
      if 1 ≤ yh * 100 + yl && 1 ≤ mo && mo ≤ 12 && 1 ≤ d &&
          d ≤ daysInMonth (yh * 100 + yl) mo then
        match parseTimePart ((yh : Int) * 100 + (yl : Int)) mo d rest with
        | some t => Except.ok t
        | none => bad
      else bad
    | _, _, _, _ => bad
  | _ => bad

/-! ## Entity rows (`app/models.py`)

`User.id` is a UUID in the source; it is modelled as a `Nat` drawn from
a sequence, which preserves everything the claims rely on (stability
and uniqueness).  `Enrollment.enrolled_at` (a server-default timestamp
never read by the code) is omitted. -/

/-- `models.User`. -/
structure User where
  id : Nat
  firebase_uid : String
  email : Option String
  name : Option String
  external_id : Option String
  department : Option String
  profile_completed : Bool
  role : String
deriving DecidableEq, Repr

/-- `models.Student`. -/
structure Student where
  student_id : Nat
  user_id : Nat
  matric_no : String
  department : Option String
  level : Option Nat
deriving DecidableEq, Repr

/-- `models.Lecturer`. -/
structure Lecturer where
  lecturer_id : Nat
  user_id : Nat
  department : Option String
deriving DecidableEq, Repr

/-- `models.Course`. -/
structure Course where
  course_id : Nat
  course_name : String
  course_code : String
  lecturer_id : Option Nat
deriving DecidableEq, Repr

/-- `models.Session`. -/
structure Session where
  session_id : Nat
  course_id : Nat
  start_time : Int
  end_time : Int
  qr_code : Value
deriving DecidableEq, Repr

/-- `models.Enrollment`. -/
structure Enrollment where
  enrollment_id : Nat
  student_id : Nat
  course_id : Nat
deriving DecidableEq, Repr

/-- `models.Attendance`.  `course_id` is `Option Nat`: `none` models SQL
`NULL`, which the schema (models.py line 150 and migration 0005)
forbids via `NOT NULL`; `status` and `verified` hold the raw payload
values the code assigns. -/
structure Attendance where
  attendance_id : Nat
  session_id : Nat
  student_id : Nat
  course_id : Option Nat
  status : Value
  timestamp : Int
  verified : Value
deriving DecidableEq, Repr

/-- The relational store: one list of rows per table. -/
structure Store where
  users : List User
  students : List Student
  lecturers : List Lecturer
  courses : List Course
  sessions : List Session
  enrollments : List Enrollment
  attendances : List Attendance
deriving DecidableEq, Repr

/-- The SQLAlchemy session: committed rows, the current view (committed
plus pending work), and the id sequences (sequences survive rollbacks,
as in the database). -/
structure Db where
  committed : Store
  current : Store
  nextUserId : Nat
  nextStudentId : Nat
  nextEnrollmentId : Nat
  nextAttendanceId : Nat
  nextSessionId : Nat
deriving DecidableEq, Repr

/-- The `attendance.course_id NOT NULL` constraint (migration 0005):
the schema constraint the sync claims exercise. -/
def attendanceOk (a : Attendance) : Bool :=
  a.course_id.isSome

/-- Commit-time constraint check over the rows about to be committed. -/
def storeOk (s : Store) : Bool :=
  s.attendances.all attendanceOk

/-- `db.commit()` inside the `sync_push` loop: on success promote the
current view; on a constraint violation the `except SQLAlchemyError`
handler calls `db.rollback()` and the operation fails with the
violation message. -/
def notNullCourseIdMsg : String :=
  "null value in column course_id of relation attendance violates not-null constraint"

def commitRollback (db : Db) : Db × (Bool × Option String) :=
  if storeOk db.current then
    ({ db with committed := db.current }, (true, none))
  else
    ({ db with current := db.committed }, (false, some notNullCourseIdMsg))

/-- `db.commit()` outside the sync loop (e.g. in `bootstrap`), where a
failure propagates as an exception. -/
def commitE (db : Db) : Except String Db :=
  if storeOk db.current then Except.ok { db with committed := db.current }
  else Except.error notNullCourseIdMsg

/-! ## Query helpers (the `db.query(...).one_or_none()` calls) -/

/-- `db.query(User).filter(User.firebase_uid == v).one_or_none()`;
a non-string comparison value matches no row. -/
def findUserByUid (s : Store) : Value → Option User
  | Value.vstr f => List.find? (fun u => u.firebase_uid == f) s.users
  | _ => none

/-- `db.query(Student).filter(Student.user_id == uid).one_or_none()`. -/
def findStudentByUser (s : Store) (uid : Nat) : Option Student :=
  List.find? (fun x => x.user_id == uid) s.students

/-- `db.query(Session).filter(Session.session_id == n).one_or_none()`. -/
def findSessionById (s : Store) (n : Int) : Option Session :=
  List.find? (fun x => ((x.session_id : Int) == n)) s.sessions

/-- `db.query(Course).filter(Course.course_id == n).one_or_none()`. -/
def findCourseById (s : Store) (n : Int) : Option Course :=
  List.find? (fun x => ((x.course_id : Int) == n)) s.courses

/-- The enrollment lookup of the attendance branch. -/
def findEnrollment (s : Store) (stuId cId : Nat) : Option Enrollment :=
  List.find? (fun e => e.student_id == stuId && e.course_id == cId) s.enrollments

/-- The key of the attendance upsert: (session id, student id). -/
def attKey (sessId stuId : Nat) (a : Attendance) : Bool :=
  a.session_id == sessId && a.student_id == stuId

/-- The attendance lookup keyed by (session id, student id). -/
def findAttendance (s : Store) (sessId stuId : Nat) : Option Attendance :=
  List.find? (attKey sessId stuId) s.attendances

/-- Update the first row matching `p` (the single object SQLAlchemy
mutates in place). -/
def updateFirst {α : Type} (p : α → Bool) (f : α → α) : List α → List α
  | [] => []
  | x :: xs => if p x then f x :: xs else x :: updateFirst p f xs

/-! ## The sync reconciler (`sync_push`, main.py lines 352-511) -/

/-- `schemas.SyncOp`. -/
structure SyncOp where
  op_id : String
  entity : String
  op : String
  entity_id : String
  payload : Payload
  client_ts : Option String
deriving DecidableEq, Repr

/-- `schemas.SyncPushResult`. -/
structure SyncPushResult where
  op_id : String
  ok : Bool
  error : Option String
deriving DecidableEq, Repr

/-- `schemas.SyncPushResponse`. -/
structure SyncPushResponse where
  results : List SyncPushResult
  cursor : Option String
deriving DecidableEq, Repr

/-- The placeholder registration number for an auto-provisioned student:
`user.external_id or f"TEMP_{user.firebase_uid[:8]}"` (main.py 387). -/
def tempMatric (u : User) : String :=
  match u.external_id with
  | some e => if e == "" then "TEMP_" ++ u.firebase_uid.take 8 else e
  | none => "TEMP_" ++ u.firebase_uid.take 8

/-- The student get-or-create of the attendance branch (main.py
382-393): the created row is `db.add`ed and `db.flush`ed (id assigned,
row pending, visible to later queries, not yet committed). -/
def getOrCreateStudent (db : Db) (user : User) : Db × Student :=
  match findStudentByUser db.current user.id with
  | some s => (db, s)
  | none =>
    let s : Student :=
      { student_id := db.nextStudentId, user_id := user.id,
        matric_no := tempMatric user, department := user.department, level := none }
    ({ db with
        current := { db.current with students := db.current.students ++ [s] },
        nextStudentId := db.nextStudentId + 1 }, s)

/-- The enrollment get-or-create of the attendance branch (main.py
406-420); the created row is pending until the next commit. -/
def getOrCreateEnrollment (db : Db) (stuId cId : Nat) : Db :=
  match findEnrollment db.current stuId cId with
  | some _ => db
  | none =>
    { db with
      current := { db.current with enrollments := db.current.enrollments ++
        [{ enrollment_id := db.nextEnrollmentId, student_id := stuId, course_id := cId }] },
      nextEnrollmentId := db.nextEnrollmentId + 1 }

/-- The field overwrite of the attendance update branch (main.py
430-431): `status = payload.get('status', 'present')`,
`verified = payload.get('face_verified', False)`. -/
def setAttendanceFields (payload : Payload) (a : Attendance) : Attendance :=
  { a with status := pgetD payload "status" (Value.vstr "present"),
           verified := pgetD payload "face_verified" (Value.vbool false) }

/-- The `Attendance(...)` constructor call of the create branch
(main.py 446-452): it sets session_id, student_id, status, timestamp
and verified, and never sets `course_id`. -/
def mkNewAttendance (aid sessId stuId : Nat) (payload : Payload) (t : Int) : Attendance :=
  { attendance_id := aid, session_id := sessId, student_id := stuId,
    course_id := none,
    status := pgetD payload "status" (Value.vstr "present"),
    timestamp := t,
    verified := pgetD payload "face_verified" (Value.vbool false) }

/-- `s.replace('Z', '+00:00')`: every occurrence of the one-character
pattern `Z` replaced by `+00:00`. -/
def replaceZ (s : String) : String :=
  String.mk (s.toList.foldr
    (fun c acc =>
      if c == 'Z' then '+' :: '0' :: '0' :: ':' :: '0' :: '0' :: acc else c :: acc)
    [])

/-- `timestamp.replace('Z', '+00:00')` then `datetime.fromisoformat`,
for a truthy payload timestamp value; a non-string raises. -/
def parseTsValue : Value → Except String Int
  | Value.vstr s => parseIso (replaceZ s)
  | _ => Except.error attrErrMsg

/-- One iteration of the `for op in body.ops` loop of `sync_push`
(main.py 363-509), returning the new session state and the
`(ok, error)` pair of the appended result.  Failure paths mirror the
code exactly: the `continue` paths leave pending rows in place, the
`except SQLAlchemyError` path (a commit failure) rolls back, and the
`except Exception` path (e.g. `int()` or timestamp parse errors) does
not roll back. -/
def processOpCore (now : Int) (db : Db) (op : SyncOp) : Db × (Bool × Option String) :=
  if op.entity == "attendance" && op.op == "create" then
    let sfu := pget op.payload "student_firebase_uid"
    if truthy sfu = false then (db, (false, some "Missing student_firebase_uid"))
    else
      match findUserByUid db.current sfu with
      | none => (db, (false, some "Student user not found"))
      | some user =>
        let ds := getOrCreateStudent db user
        let db1 := ds.1
        let student := ds.2
        let ssid := pget op.payload "session_id"
        if truthy ssid = false then (db1, (false, some "Missing session_id"))
        else
          match toIntE ssid with
          | Except.error msg => (db1, (false, some msg))
          | Except.ok n =>
            match findSessionById db1.current n with
            | none => (db1, (false, some "Session not found"))
            | some sess =>
              let db2 := getOrCreateEnrollment db1 student.student_id sess.course_id
              match findAttendance db2.current sess.session_id student.student_id with
              | some _ =>
                let db3 := { db2 with current := { db2.current with
                    attendances := updateFirst (attKey sess.session_id student.student_id)
                      (setAttendanceFields op.payload) db2.current.attendances } }
                let ts := pget op.payload "timestamp"
                if truthy ts then
                  match parseTsValue ts with
                  | Except.error m => (db3, (false, some m))
                  | Except.ok t =>
                    let db4 := { db3 with current := { db3.current with
                        attendances := updateFirst (attKey sess.session_id student.student_id)
                          (fun a => { a with timestamp := t }) db3.current.attendances } }
                    commitRollback db4
                else commitRollback db3
              | none =>
                let ts := pget op.payload "timestamp"
                let tsv := if truthy ts then parseTsValue ts else Except.ok now
                match tsv with
                | Except.error m => (db2, (false, some m))
                | Except.ok t =>
                  let a := mkNewAttendance db2.nextAttendanceId sess.session_id
                    student.student_id op.payload t
                  let db3 := { db2 with
                    current := { db2.current with
                      attendances := db2.current.attendances ++ [a] },
                    nextAttendanceId := db2.nextAttendanceId + 1 }
                  commitRollback db3
  else if op.entity == "session" && op.op == "create" then
    let cid := pget op.payload "course_id"
    if truthy cid = false then (db, (false, some "Missing course_id"))
    else
      match toIntE cid with
      | Except.error m => (db, (false, some m))
      | Except.ok n =>
        match findCourseById db.current n with
        | none => (db, (false, some "Course not found"))
        | some course =>
          let stv := pget op.payload "start_time"
          let startE := if truthy stv then parseTsValue stv else Except.ok now
          match startE with
          | Except.error m => (db, (false, some m))
          | Except.ok startT =>
            let etv := pget op.payload "end_time"
            let endE := if truthy etv then parseTsValue etv else Except.ok (startT + 3600)
            match endE with
            | Except.error m => (db, (false, some m))
            | Except.ok endT =>
              let srow : Session :=
                { session_id := db.nextSessionId, course_id := course.course_id,
                  start_time := startT, end_time := endT,
                  qr_code := pget op.payload "qr_code" }
              let db1 := { db with
                current := { db.current with sessions := db.current.sessions ++ [srow] },
                nextSessionId := db.nextSessionId + 1 }
              commitRollback db1
  else
    (db, (true, none))

/-- One loop iteration including the appended `SyncPushResult`
(`op_id` always comes from the operation). -/
def processOp (now : Int) (db : Db) (op : SyncOp) : Db × SyncPushResult :=
  let r := processOpCore now db op
  (r.1, { op_id := op.op_id, ok := r.2.1, error := r.2.2 })

/-- The whole `for op in body.ops` loop. -/
def syncPushLoop (now : Int) : Db → List SyncOp → Db × List SyncPushResult
  | db, [] => (db, [])
  | db, op :: ops =>
    let r := processOp now db op
    let rest := syncPushLoop now r.1 ops
    (rest.1, r.2 :: rest.2)

/-- `sync_push` (main.py 352-511): process every operation in order and
return the results with the always-null cursor. -/
def sync_push (now : Int) (db : Db) (ops : List SyncOp) : Db × SyncPushResponse :=
  let r := syncPushLoop now db ops
  (r.1, { results := r.2, cursor := none })

/-! ## The identity resolver (`bootstrap`, main.py 70-129) -/

/-- `schemas.BootstrapResponse`. -/
structure BootstrapResponse where
  firebase_uid : String
  role : String
  profile_completed : Bool
  is_new_user : Bool
deriving DecidableEq, Repr

/-- Role normalization (main.py 76-78). -/
def normRole (raw : String) : String :=
  let role := raw.trim.toLower
  if role == "student" || role == "lecturer" then role else "student"

/-- `bootstrap`: resolve or create the `User` for the verified identity
`(uid, email, name)` with requested role `roleRaw`.  A database failure
surfaces as `Except.error` (the endpoint turns it into an HTTP 500). -/
def bootstrap (db : Db) (uid : String) (email name : Option String) (roleRaw : String) :
    Except String (Db × BootstrapResponse) :=
  let role := normRole roleRaw
  match List.find? (fun u => u.firebase_uid == uid) db.current.users with
  | some u =>
    let u2 := { u with email := email, name := name, role := role }
    let db1 := { db with current := { db.current with
        users := updateFirst (fun x => x.firebase_uid == uid)
          (fun x => { x with email := email, name := name, role := role })
          db.current.users } }
    Except.map
      (fun db2 => (db2,
        { firebase_uid := u2.firebase_uid, role := u2.role,
          profile_completed := u2.profile_completed, is_new_user := false }))
      (commitE db1)
  | none =>
    let u : User :=
      { id := db.nextUserId, firebase_uid := uid, email := email, name := name,
        external_id := none, department := none, profile_completed := false,
        role := role }
    let db1 := { db with
      current := { db.current with users := db.current.users ++ [u] },
      nextUserId := db.nextUserId + 1 }
    Except.map
      (fun db2 => (db2,
        { firebase_uid := u.firebase_uid, role := u.role,
          profile_completed := u.profile_completed, is_new_user := true }))
      (commitE db1)

/-- A committed state whose attendance table is replaced by `l`: the
shape of the database after an attendance-update operation commits. -/
def withAttendances (db : Db) (l : List Attendance) : Db :=
  { db with
    committed := { db.current with attendances := l },
    current := { db.current with attendances := l } }

/-! ## Concrete sample data, used by evaluation theorems and witnesses -/

/-- A student-role user as `bootstrap` would create it. -/
def sUser : User :=
  { id := 1, firebase_uid := "uid-1", email := some "a", name := some "A",
    external_id := none, department := none, profile_completed := false,
    role := "student" }

def sStudent : Student :=
  { student_id := 1, user_id := 1, matric_no := "M1", department := none, level := none }

def sCourse : Course :=
  { course_id := 1, course_name := "N", course_code := "CC1", lecturer_id := none }

def sSession : Session :=
  { session_id := 1, course_id := 1, start_time := 0, end_time := 3600,
    qr_code := Value.vnone }

def sEnrollment : Enrollment :=
  { enrollment_id := 1, student_id := 1, course_id := 1 }

/-- A committed attendance row for (session 1, student 1), with a
non-default status and a verified check-in. -/
def sAttendance : Attendance :=
  { attendance_id := 1, session_id := 1, student_id := 1, course_id := some 1,
    status := Value.vstr "late", timestamp := 5, verified := Value.vbool true }

/-- Store with a student user, a course, but no Student row and no
sessions: the C1 leftover-row scenario. -/
def noStudentStore : Store :=
  { users := [sUser], students := [], lecturers := [], courses := [sCourse],
    sessions := [], enrollments := [], attendances := [] }

def noStudentDb : Db :=
  { committed := noStudentStore, current := noStudentStore, nextUserId := 2,
    nextStudentId := 2, nextEnrollmentId := 1, nextAttendanceId := 1, nextSessionId := 1 }

/-- Store with user, student, course and session but no enrollment and
no attendance rows: a first check-in scenario. -/
def freshStore : Store :=
  { users := [sUser], students := [sStudent], lecturers := [], courses := [sCourse],
    sessions := [sSession], enrollments := [], attendances := [] }

def freshDb : Db :=
  { committed := freshStore, current := freshStore, nextUserId := 2, nextStudentId := 2,
    nextEnrollmentId := 2, nextAttendanceId := 1, nextSessionId := 2 }

/-- `freshStore` plus the enrollment and a committed attendance row:
the upsert-update scenario. -/
def seenStore : Store :=
  { freshStore with enrollments := [sEnrollment], attendances := [sAttendance] }

def seenDb : Db :=
  { freshDb with committed := seenStore, current := seenStore, nextAttendanceId := 2 }

def emptyStore : Store :=
  { users := [], students := [], lecturers := [], courses := [],
    sessions := [], enrollments := [], attendances := [] }

def emptyDb : Db :=
  { committed := emptyStore, current := emptyStore, nextUserId := 1,
    nextStudentId := 1, nextEnrollmentId := 1, nextAttendanceId := 1, nextSessionId := 1 }

/-- An attendance check-in operation for `sUser` in session `n`. -/
def attOp (i : String) (n : Int) : SyncOp :=
  { op_id := i, entity := "attendance", op := "create", entity_id := "e1",
    payload := [("student_firebase_uid", Value.vstr "uid-1"), ("session_id", Value.vint n)],
    client_ts := none }

/-- A session-create operation for course 1. -/
def sessOp (i : String) : SyncOp :=
  { op_id := i, entity := "session", op := "create", entity_id := "e2",
    payload := [("course_id", Value.vint 1)], client_ts := none }

/-- An operation with an entity/verb pair the reconciler does not
understand. -/
def fooBarOp : SyncOp :=
  { op_id := "z", entity := "foo", op := "bar", entity_id := "e", payload := [],
    client_ts := none }

/-- A check-in whose `session_id` is not a decimal integer string. -/
def badSessionOp : SyncOp :=
  { op_id := "x1", entity := "attendance", op := "create", entity_id := "e",
    payload := [("student_firebase_uid", Value.vstr "uid-1"),
      ("session_id", Value.vstr "12ab")],
    client_ts := none }

/-- A session-create whose `course_id` is not a decimal integer string. -/
def badCourseOp : SyncOp :=
  { op_id := "x2", entity := "session", op := "create", entity_id := "e",
    payload := [("course_id", Value.vstr "7.5")], client_ts := none }

/-- A session-create referencing a course id with no Course row. -/
def sessOpNoCourse : SyncOp :=
  { op_id := "s0", entity := "session", op := "create", entity_id := "e2",
    payload := [("course_id", Value.vint 42)], client_ts := none }

/-- A session-create with an explicit ISO start time and no end time. -/
def sessOpStart : SyncOp :=
  { op_id := "s2", entity := "session", op := "create", entity_id := "e2",
    payload := [("course_id", Value.vint 1),
      ("start_time", Value.vstr "2026-03-01T10:00:00Z")],
    client_ts := none }

/-! ## Helper lemmas -/

theorem find?_append_none {α : Type} (p : α → Bool) (l l2 : List α)
    (h : l.find? p = none) : (l ++ l2).find? p = l2.find? p := by
  induction l with
  | nil => simp
  | cons x xs ih =>
    by_cases hx : p x
    · simp [List.find?_cons_of_pos, hx] at h
    · simp only [List.find?_cons_of_neg _ hx] at h
      simpa [List.find?_cons_of_neg _ hx] using ih h

theorem updateFirst_append_none {α : Type} (p : α → Bool) (f : α → α) (l l2 : List α)
    (h : l.find? p = none) : updateFirst p f (l ++ l2) = l ++ updateFirst p f l2 := by
  induction l with
  | nil => simp [updateFirst]
  | cons x xs ih =>
    by_cases hx : p x
    · simp [List.find?_cons_of_pos, hx] at h
    · simp only [List.find?_cons_of_neg _ hx] at h
      simp [updateFirst, hx, ih h]

theorem find?_updateFirst {α : Type} (p : α → Bool) (f : α → α)
    (hpf : ∀ x, p (f x) = p x) (l : List α) :
    (updateFirst p f l).find? p = Option.map f (l.find? p) := by
  induction l with
  | nil => simp [updateFirst]
  | cons x xs ih =>
    by_cases hx : p x
    · simp [updateFirst, hx, List.find?_cons_of_pos, hpf]
    · simp only [updateFirst, hx, if_false, List.find?_cons_of_neg _ hx]
      simpa [List.find?_cons_of_neg _ hx] using ih

theorem all_updateFirst {α : Type} (p q : α → Bool) (f : α → α)
    (hqf : ∀ x, q (f x) = q x) (l : List α) :
    (updateFirst p f l).all q = l.all q := by
  induction l with
  | nil => simp [updateFirst]
  | cons x xs ih =>
    by_cases hx : p x
    · simp [updateFirst, hx, hqf]
    · simp [updateFirst, hx, ih]

/-- A commit on a state passing the constraint check promotes the
current view. -/
theorem commitRollback_ok (db : Db) (h : storeOk db.current = true) :
    commitRollback db = ({ db with committed := db.current }, (true, none)) := by
  simp [commitRollback, h]

/-- A commit on a state violating the constraint check rolls back. -/
theorem commitRollback_fail (db : Db) (h : storeOk db.current = false) :
    commitRollback db =
      ({ db with current := db.committed }, (false, some notNullCourseIdMsg)) := by
  simp [commitRollback, h]

/-- A request-level commit on a state passing the constraint check. -/
theorem commitE_ok (db : Db) (h : storeOk db.current = true) :
    commitE db = Except.ok { db with committed := db.current } := by
  simp [commitE, h]

/-- The attendance-field overwrite never touches `course_id`, so it
preserves the NOT-NULL check. -/
theorem attendanceOk_setFields (p : Payload) (a : Attendance) :
    attendanceOk (setAttendanceFields p a) = attendanceOk a := rfl

/-- The attendance-field overwrite never touches the upsert key. -/
theorem attKey_setFields (s t : Nat) (p : Payload) (a : Attendance) :
    attKey s t (setAttendanceFields p a) = attKey s t a := rfl

/-- Every loop iteration appends a result whose `op_id` is the
operation's. -/
theorem processOp_op_id (now : Int) (db : Db) (op : SyncOp) :
    ((processOp now db op).2).op_id = op.op_id := rfl

theorem syncPushLoop_map_op_id (now : Int) (db : Db) (ops : List SyncOp) :
    ((syncPushLoop now db ops).2).map SyncPushResult.op_id = ops.map SyncOp.op_id := by
  induction ops generalizing db with
  | nil => rfl
  | cons op ops ih => simp [syncPushLoop, processOp, ih]

/-- An attendance-create operation whose chain succeeds through the
update branch of the upsert (user, student, session, enrollment and a
prior attendance row all exist, payload timestamp absent): it overwrites
status and verified on the existing row and commits. -/
theorem processOp_attendance_update (now : Int) (db : Db) (op : SyncOp)
    (f : String) (n : Int) (u : User) (stu : Student) (sess : Session)
    (enr : Enrollment) (att : Attendance)
    (hent : op.entity = "attendance") (hop : op.op = "create")
    (hsfu : pget op.payload "student_firebase_uid" = Value.vstr f)
    (hf : f ≠ "")
    (huser : findUserByUid db.current (Value.vstr f) = some u)
    (hstu : findStudentByUser db.current u.id = some stu)
    (hsid : pget op.payload "session_id" = Value.vint n)
    (hn : n ≠ 0)
    (hsess : findSessionById db.current n = some sess)
    (henr : findEnrollment db.current stu.student_id sess.course_id = some enr)
    (hatt : findAttendance db.current sess.session_id stu.student_id = some att)
    (hts : pget op.payload "timestamp" = Value.vnone)
    (hok : storeOk db.current = true) :
    processOp now db op =
      (withAttendances db
        (updateFirst (attKey sess.session_id stu.student_id)
          (setAttendanceFields op.payload) db.current.attendances),
       { op_id := op.op_id, ok := true, error := none }) := by
  have hf2 : (f == "") = false := by simpa using hf
  have hn2 : (n == 0) = false := by simpa using hn
  have hok2 : (updateFirst (attKey sess.session_id stu.student_id)
      (setAttendanceFields op.payload) db.current.attendances).all attendanceOk = true := by
    rw [all_updateFirst _ _ _ (fun a => attendanceOk_setFields op.payload a)]
    exact hok
  simp only [processOp, processOpCore, hent, hop, hsfu, hsid, hts, truthy, hf2, hn2,
    Bool.not_false, getOrCreateStudent, getOrCreateEnrollment, hstu, huser, toIntE,
    hsess, henr, hatt, commitRollback, storeOk, hok2, withAttendances]
  simp [findAttendance]

/-- An attendance-create operation that resolves its user and student
but references a session id matching no Session row: it fails with
"Session not found" and leaves the session state as it found it. -/
theorem processOp_attendance_no_session (now : Int) (db : Db) (op : SyncOp)
    (f : String) (n : Int) (u : User) (stu : Student)
    (hent : op.entity = "attendance") (hop : op.op = "create")
    (hsfu : pget op.payload "student_firebase_uid" = Value.vstr f)
    (hf : f ≠ "")
    (huser : findUserByUid db.current (Value.vstr f) = some u)
    (hstu : findStudentByUser db.current u.id = some stu)
    (hsid : pget op.payload "session_id" = Value.vint n)
    (hn : n ≠ 0)
    (hsess : findSessionById db.current n = none) :
    processOp now db op =
      (db, { op_id := op.op_id, ok := false, error := some "Session not found" }) := by
  have hf2 : (f == "") = false := by simpa using hf
  have hn2 : (n == 0) = false := by simpa using hn
  simp only [processOp, processOpCore, hent, hop, hsfu, hsid, truthy, hf2, hn2,
    Bool.not_false, getOrCreateStudent, hstu, huser, toIntE, hsess]
  simp

/-! ## Claim theorems -/

/-- C4: for every input batch of operations, the `sync_push` response
contains exactly one result per operation, in input order, the i-th
result carrying the i-th operation's `op_id` (together with its success
flag and optional error string), and the response cursor is always
null. -/
theorem sync_push_results_shape (now : Int) (db : Db) (ops : List SyncOp) :
    ((sync_push now db ops).2.results).map SyncPushResult.op_id = ops.map SyncOp.op_id ∧
    (sync_push now db ops).2.cursor = none :=
  ⟨syncPushLoop_map_op_id now db ops, rfl⟩

/-- C7: an operation whose (entity, verb) pair is neither
('attendance','create') nor ('session','create') is a successful no-op:
its result is `ok = true` and the database state — every stored entity
— is completely unchanged. -/
theorem unknown_op_noop (now : Int) (db : Db) (op : SyncOp)
    (h1 : (op.entity == "attendance" && op.op == "create") = false)
    (h2 : (op.entity == "session" && op.op == "create") = false) :
    processOp now db op = (db, { op_id := op.op_id, ok := true, error := none }) := by
  simp [processOp, processOpCore, h1, h2]

/-- C7 witness: entity `"foo"` with verb `"bar"` on the sample store. -/
theorem unknown_op_noop_witness :
    processOp 0 freshDb fooBarOp =
      (freshDb, { op_id := "z", ok := true, error := none }) :=
  unknown_op_noop 0 freshDb fooBarOp (by decide) (by decide)

/-- C1 (evaluation at the failing input): a batch whose first operation
is an attendance-create that auto-provisions a Student and then fails
with "Session not found", followed by a session-create that succeeds.
The failed first operation's auto-created Student row IS committed (by
the second operation's commit), contradicting the claim that a failure
after the auto-provisioning step leaves the store unchanged: the
"Session not found" path continues the loop without rolling back. -/
theorem sync_push_commits_leftover_rows_after_failed_op :
    ((sync_push 0 noStudentDb [attOp "o1" 999, sessOp "o2"]).2.results).map
        (fun r => (r.ok, r.error)) =
      [(false, some "Session not found"), (true, none)] ∧
    (sync_push 0 noStudentDb [attOp "o1" 999, sessOp "o2"]).1.committed.students =
      [{ student_id := 2, user_id := 1, matric_no := "TEMP_uid-1",
         department := none, level := none }] := by
  constructor <;> rfl

/-- C2 (evaluation at the failing input): pushing the same
attendance-create operation twice for a (session, student) pair with no
existing Attendance row yields `ok = false` twice (the insert omits the
NOT-NULL `course_id`, so each commit fails and rolls back) and leaves
no Attendance row — not two `ok = true` results and one upserted row as
the claim states. -/
theorem attendance_create_not_null_violation_eval :
    ((sync_push 0 freshDb [attOp "p1" 1, attOp "p2" 1]).2.results).map
        (fun r => (r.ok, r.error)) =
      [(false, some notNullCourseIdMsg), (false, some notNullCourseIdMsg)] ∧
    (sync_push 0 freshDb [attOp "p1" 1, attOp "p2" 1]).1.committed = freshStore := by
  constructor <;> rfl

/-- C3 (counterexample): a batch of three operations whose first and
third are well-formed attendance-creates referencing an existing
session and student (with no prior Attendance row) and whose second
references a non-existent session does NOT yield
`[ok, fail "Session not found", ok]`: the first and third fail at
commit time on the missing `course_id`. -/
theorem failure_isolation_counterexample :
    ((sync_push 0 freshDb [attOp "p1" 1, attOp "q2" 2, attOp "p2" 1]).2.results).map
        (fun r => (r.ok, r.error)) =
      [(false, some notNullCourseIdMsg), (false, some "Session not found"),
       (false, some notNullCourseIdMsg)] ∧
    ((sync_push 0 freshDb [attOp "p1" 1, attOp "q2" 2, attOp "p2" 1]).2.results).map
        (fun r => (r.ok, r.error)) ≠
      [(true, none), (false, some "Session not found"), (true, none)] := by
  constructor
  · rfl
  · decide

/-- C9: in the update branch of the attendance upsert, a payload that
omits `status` overwrites the stored status with the default "present"
and a payload that omits `face_verified` overwrites the stored verified
flag with False (erasing a previously recorded verified=true), whereas
a payload that omits `timestamp` leaves the stored timestamp unchanged
(the updated row keeps `att.timestamp`) rather than resetting it to
processing time. -/
theorem attendance_update_overwrite_defaults (now : Int) (db : Db) (op : SyncOp)
    (f : String) (n : Int) (u : User) (stu : Student) (sess : Session)
    (enr : Enrollment) (att : Attendance)
    (hent : op.entity = "attendance") (hop : op.op = "create")
    (hsfu : pget op.payload "student_firebase_uid" = Value.vstr f)
    (hf : f ≠ "")
    (huser : findUserByUid db.current (Value.vstr f) = some u)
    (hstu : findStudentByUser db.current u.id = some stu)
    (hsid : pget op.payload "session_id" = Value.vint n)
    (hn : n ≠ 0)
    (hsess : findSessionById db.current n = some sess)
    (henr : findEnrollment db.current stu.student_id sess.course_id = some enr)
    (hatt : findAttendance db.current sess.session_id stu.student_id = some att)
    (hstatus : List.find? (fun kv => kv.1 == "status") op.payload = none)
    (hver : List.find? (fun kv => kv.1 == "face_verified") op.payload = none)
    (htsk : List.find? (fun kv => kv.1 == "timestamp") op.payload = none)
    (hok : storeOk db.current = true) :
    processOp now db op =
      (withAttendances db
        (updateFirst (attKey sess.session_id stu.student_id)
          (fun a => { a with status := Value.vstr "present", verified := Value.vbool false })
          db.current.attendances),
       { op_id := op.op_id, ok := true, error := none }) ∧
    findAttendance (withAttendances db
        (updateFirst (attKey sess.session_id stu.student_id)
          (fun a => { a with status := Value.vstr "present", verified := Value.vbool false })
          db.current.attendances)).current sess.session_id stu.student_id =
      some { att with status := Value.vstr "present", verified := Value.vbool false } := by
  have hsetf : setAttendanceFields op.payload =
      fun a => { a with status := Value.vstr "present", verified := Value.vbool false } := by
    funext a
    simp [setAttendanceFields, pgetD, hstatus, hver]
  have hts : pget op.payload "timestamp" = Value.vnone := by
    simp [pget, pgetD, htsk]
  have h1 := processOp_attendance_update now db op f n u stu sess enr att hent hop hsfu hf
    huser hstu hsid hn hsess henr hatt hts hok
  rw [hsetf] at h1
  refine ⟨h1, ?_⟩
  show List.find? (attKey sess.session_id stu.student_id)
      (updateFirst (attKey sess.session_id stu.student_id)
        (fun a => { a with status := Value.vstr "present", verified := Value.vbool false })
        db.current.attendances) = _
  rw [find?_updateFirst (attKey sess.session_id stu.student_id)
      (fun a => { a with status := Value.vstr "present", verified := Value.vbool false })
      (fun x => rfl)]
  rw [show List.find? (attKey sess.session_id stu.student_id) db.current.attendances
      = some att from hatt]
  rfl

/-- C9 witness: the sample store holds a (session 1, student 1) row
with status "late", verified true, timestamp 5; pushing a check-in with
an empty-field payload overwrites status to "present" and verified to
false and keeps timestamp 5. -/
theorem attendance_update_overwrite_defaults_witness :
    processOp 0 seenDb (attOp "p1" 1) =
      (withAttendances seenDb
        (updateFirst (attKey 1 1)
          (fun a => { a with status := Value.vstr "present", verified := Value.vbool false })
          seenDb.current.attendances),
       { op_id := "p1", ok := true, error := none }) ∧
    findAttendance (withAttendances seenDb
        (updateFirst (attKey 1 1)
          (fun a => { a with status := Value.vstr "present", verified := Value.vbool false })
          seenDb.current.attendances)).current 1 1 =
      some { sAttendance with
              status := Value.vstr "present", verified := Value.vbool false } :=
  attendance_update_overwrite_defaults 0 seenDb (attOp "p1" 1) "uid-1" 1
    sUser sStudent sSession sEnrollment sAttendance
    rfl rfl rfl (by decide) rfl rfl rfl (by decide) rfl rfl rfl
    (by decide) (by decide) (by decide) rfl

/-- C8: the Attendance row constructed by the attendance-create branch
sets session_id, student_id, status, timestamp and verified but never
`course_id`, which the schema declares NOT NULL — so a first check-in
of a (session, student) pair (no existing Attendance row) violates the
constraint at commit time: the operation fails with the violation
message and its transaction is rolled back. -/
theorem attendance_insert_missing_course_id (now : Int) (db : Db) (op : SyncOp)
    (f : String) (n : Int) (u : User) (stu : Student) (sess : Session)
    (enr : Enrollment)
    (hent : op.entity = "attendance") (hop : op.op = "create")
    (hsfu : pget op.payload "student_firebase_uid" = Value.vstr f)
    (hf : f ≠ "")
    (huser : findUserByUid db.current (Value.vstr f) = some u)
    (hstu : findStudentByUser db.current u.id = some stu)
    (hsid : pget op.payload "session_id" = Value.vint n)
    (hn : n ≠ 0)
    (hsess : findSessionById db.current n = some sess)
    (henr : findEnrollment db.current stu.student_id sess.course_id = some enr)
    (hatt : findAttendance db.current sess.session_id stu.student_id = none)
    (hts : pget op.payload "timestamp" = Value.vnone) :
    (∀ (aid sid stid : Nat) (p : Payload) (t : Int),
      (mkNewAttendance aid sid stid p t).course_id = none ∧
      attendanceOk (mkNewAttendance aid sid stid p t) = false) ∧
    processOp now db op =
      ({ db with current := db.committed, nextAttendanceId := db.nextAttendanceId + 1 },
       { op_id := op.op_id, ok := false, error := some notNullCourseIdMsg }) := by
  refine ⟨fun aid sid stid p t => ⟨rfl, rfl⟩, ?_⟩
  have hf2 : (f == "") = false := by simpa using hf
  have hn2 : (n == 0) = false := by simpa using hn
  simp only [processOp, processOpCore, hent, hop, hsfu, hsid, hts, truthy, hf2, hn2,
    Bool.not_false, getOrCreateStudent, getOrCreateEnrollment, hstu, huser, toIntE,
    hsess, henr, hatt]
  simp only [show (("attendance" == "attendance") && ("create" == "create")) = true from rfl,
    if_true, show (true = false) = False from by simp, show (false = true) = False from by simp,
    if_false, ite_false, ite_true]
  rw [commitRollback_fail _
    (by simp [storeOk, List.all_append, attendanceOk, mkNewAttendance])]

/-- C8 witness: the first check-in for (session 1, student 1) on the
sample store with an existing enrollment fails with the NOT-NULL
violation and leaves the committed store unchanged. -/
theorem attendance_insert_missing_course_id_witness :
    (∀ (aid sid stid : Nat) (p : Payload) (t : Int),
      (mkNewAttendance aid sid stid p t).course_id = none ∧
      attendanceOk (mkNewAttendance aid sid stid p t) = false) ∧
    processOp 0
        { freshDb with
          committed := { freshStore with enrollments := [sEnrollment] },
          current := { freshStore with enrollments := [sEnrollment] } }
        (attOp "p1" 1) =
      ({ { freshDb with
           committed := { freshStore with enrollments := [sEnrollment] },
           current := { freshStore with enrollments := [sEnrollment] } } with
         current := { freshStore with enrollments := [sEnrollment] },
         nextAttendanceId := 2 },
       { op_id := "p1", ok := false, error := some notNullCourseIdMsg }) :=
  attendance_insert_missing_course_id 0
    { freshDb with
      committed := { freshStore with enrollments := [sEnrollment] },
      current := { freshStore with enrollments := [sEnrollment] } }
    (attOp "p1" 1) "uid-1" 1 sUser sStudent sSession sEnrollment
    rfl rfl rfl (by decide) rfl rfl rfl (by decide) rfl rfl rfl rfl

/-- C10: an attendance-create or session-create operation whose payload
carries a non-empty `session_id` / `course_id` string that is not a
decimal integer fails inside the loop: the `int()` conversion raises,
the exception is caught, the result is `ok = false` with the conversion
error message, and the loop continues with the remaining operations
(so `sync_push` never raises).  The string is restricted to ASCII
(`isAsciiStr`), the domain on which `parseDec` is exactly Python
`int()`; non-ASCII digit forms, which `int()` converts, are outside
this theorem's scope rather than asserted to fail. -/
theorem int_conversion_error_isolated :
    (∀ (now : Int) (db : Db) (op : SyncOp) (f sv : String) (u : User) (stu : Student),
      op.entity = "attendance" → op.op = "create" →
      pget op.payload "student_firebase_uid" = Value.vstr f → f ≠ "" →
      findUserByUid db.current (Value.vstr f) = some u →
      findStudentByUser db.current u.id = some stu →
      pget op.payload "session_id" = Value.vstr sv → sv ≠ "" →
      isAsciiStr sv = true →
      parseDec sv = none →
      (processOp now db op =
        (db, { op_id := op.op_id, ok := false, error := some (intErrMsg sv) }) ∧
      ∀ rest : List SyncOp, syncPushLoop now db (op :: rest) =
        ((syncPushLoop now db rest).1,
         { op_id := op.op_id, ok := false, error := some (intErrMsg sv) } ::
           (syncPushLoop now db rest).2))) ∧
    (∀ (now : Int) (db : Db) (op : SyncOp) (sv : String),
      op.entity = "session" → op.op = "create" →
      pget op.payload "course_id" = Value.vstr sv → sv ≠ "" →
      isAsciiStr sv = true →
      parseDec sv = none →
      (processOp now db op =
        (db, { op_id := op.op_id, ok := false, error := some (intErrMsg sv) }) ∧
      ∀ rest : List SyncOp, syncPushLoop now db (op :: rest) =
        ((syncPushLoop now db rest).1,
         { op_id := op.op_id, ok := false, error := some (intErrMsg sv) } ::
           (syncPushLoop now db rest).2))) := by
  constructor
  · intro now db op f sv u stu hent hop hsfu hf huser hstu hsid hsv _hascii hparse
    have hf2 : (f == "") = false := by simpa using hf
    have hsv2 : (sv == "") = false := by simpa using hsv
    have hmain : processOp now db op =
        (db, { op_id := op.op_id, ok := false, error := some (intErrMsg sv) }) := by
      simp only [processOp, processOpCore, hent, hop, hsfu, hsid, truthy, hf2, hsv2,
        Bool.not_false, getOrCreateStudent, hstu, huser, toIntE, hparse]
      simp
    refine ⟨hmain, fun rest => ?_⟩
    simp only [syncPushLoop, hmain]
  · intro now db op sv hent hop hcid hsv _hascii hparse
    have hsv2 : (sv == "") = false := by simpa using hsv
    have hmain : processOp now db op =
        (db, { op_id := op.op_id, ok := false, error := some (intErrMsg sv) }) := by
      simp only [processOp, processOpCore, hent, hop, hcid, truthy, hsv2,
        Bool.not_false, toIntE, hparse]
      simp
    refine ⟨hmain, fun rest => ?_⟩
    simp only [syncPushLoop, hmain]

/-- C10 witness: a check-in whose `session_id` is `"12ab"` and a
session-create whose `course_id` is `"7.5"`, each followed by a second
operation that is still processed. -/
theorem int_conversion_error_isolated_witness :
    (processOp 0 freshDb badSessionOp =
      (freshDb, { op_id := "x1", ok := false, error := some (intErrMsg "12ab") }) ∧
    ∀ rest : List SyncOp, syncPushLoop 0 freshDb (badSessionOp :: rest) =
      ((syncPushLoop 0 freshDb rest).1,
       { op_id := "x1", ok := false, error := some (intErrMsg "12ab") } ::
         (syncPushLoop 0 freshDb rest).2)) ∧
    (processOp 0 freshDb badCourseOp =
      (freshDb, { op_id := "x2", ok := false, error := some (intErrMsg "7.5") }) ∧
    ∀ rest : List SyncOp, syncPushLoop 0 freshDb (badCourseOp :: rest) =
      ((syncPushLoop 0 freshDb rest).1,
       { op_id := "x2", ok := false, error := some (intErrMsg "7.5") } ::
         (syncPushLoop 0 freshDb rest).2)) :=
  ⟨int_conversion_error_isolated.1 0 freshDb badSessionOp "uid-1" "12ab" sUser sStudent
      rfl rfl rfl (by decide) rfl rfl rfl (by decide) (by decide) (by decide),
   int_conversion_error_isolated.2 0 freshDb badCourseOp "7.5"
      rfl rfl rfl (by decide) (by decide) (by decide)⟩

/-- C6: a session-create operation resolving its course id to `n`:
if no Course row has id `n` the operation fails with "Course not
found"; otherwise a Session for that course is created and committed
with `ok = true`, its start time defaulting to the processing-time
clock when the payload omits `start_time` (conjunct 2) and its end time
defaulting to start time plus one hour (3600 seconds) when the payload
omits `end_time` (conjuncts 2 and 3, the latter with an explicit
parsed start time). -/
theorem session_create_spec (now : Int) (db : Db) (op : SyncOp) (n : Int)
    (hent : op.entity = "session") (hop : op.op = "create")
    (hcid : pget op.payload "course_id" = Value.vint n) (hn : n ≠ 0) :
    (findCourseById db.current n = none →
      processOp now db op =
        (db, { op_id := op.op_id, ok := false, error := some "Course not found" })) ∧
    (∀ c : Course, findCourseById db.current n = some c →
      pget op.payload "start_time" = Value.vnone →
      pget op.payload "end_time" = Value.vnone →
      storeOk db.current = true →
      processOp now db op =
        ({ db with
            committed := { db.current with
              sessions := db.current.sessions ++
                [{ session_id := db.nextSessionId, course_id := c.course_id,
                   start_time := now, end_time := now + 3600,
                   qr_code := pget op.payload "qr_code" }] },
            current := { db.current with
              sessions := db.current.sessions ++
                [{ session_id := db.nextSessionId, course_id := c.course_id,
                   start_time := now, end_time := now + 3600,
                   qr_code := pget op.payload "qr_code" }] },
            nextSessionId := db.nextSessionId + 1 },
         { op_id := op.op_id, ok := true, error := none })) ∧
    (∀ (c : Course) (sv : String) (t : Int), findCourseById db.current n = some c →
      pget op.payload "start_time" = Value.vstr sv → sv ≠ "" →
      parseIso (replaceZ sv) = Except.ok t →
      pget op.payload "end_time" = Value.vnone →
      storeOk db.current = true →
      processOp now db op =
        ({ db with
            committed := { db.current with
              sessions := db.current.sessions ++
                [{ session_id := db.nextSessionId, course_id := c.course_id,
                   start_time := t, end_time := t + 3600,
                   qr_code := pget op.payload "qr_code" }] },
            current := { db.current with
              sessions := db.current.sessions ++
                [{ session_id := db.nextSessionId, course_id := c.course_id,
                   start_time := t, end_time := t + 3600,
                   qr_code := pget op.payload "qr_code" }] },
            nextSessionId := db.nextSessionId + 1 },
         { op_id := op.op_id, ok := true, error := none })) := by
  have hn2 : (n == 0) = false := by simpa using hn
  refine ⟨?_, ?_, ?_⟩
  · intro hc
    simp only [processOp, processOpCore, hent, hop, hcid, truthy, hn2,
      Bool.not_false, toIntE, hc]
    simp
  · intro c hc hst het hok
    simp only [processOp, processOpCore, hent, hop, hcid, truthy, hn2,
      Bool.not_false, toIntE, hc, hst, het]
    simp only [show (("session" == "attendance") && ("create" == "create")) = false from rfl,
      show (("session" == "session") && ("create" == "create")) = true from rfl,
      if_true, show (true = false) = False from by simp,
      show (false = true) = False from by simp, if_false, ite_false, ite_true]
    rw [commitRollback_ok]
    all_goals exact hok
  · intro c sv t hc hst hsv hpt het hok
    have hsv2 : (sv == "") = false := by simpa using hsv
    simp only [processOp, processOpCore, hent, hop, hcid, truthy, hn2, hsv2,
      Bool.not_false, toIntE, hc, hst, het, parseTsValue, hpt]
    simp only [show (("session" == "attendance") && ("create" == "create")) = false from rfl,
      show (("session" == "session") && ("create" == "create")) = true from rfl,
      if_true, show (true = false) = False from by simp,
      show (false = true) = False from by simp, if_false, ite_false, ite_true]
    rw [commitRollback_ok]
    all_goals exact hok

/-- C6 witness: with clock 7, a session-create for the missing course
42 fails with "Course not found"; one for course 1 with no times, and
one with start `2026-03-01T10:00:00Z` and no end time, both succeed. -/
theorem session_create_spec_witness :
    processOp 7 freshDb sessOpNoCourse =
      (freshDb, { op_id := "s0", ok := false, error := some "Course not found" }) ∧
    (processOp 7 freshDb (sessOp "s1")).2 = { op_id := "s1", ok := true, error := none } ∧
    (processOp 7 freshDb sessOpStart).2 = { op_id := "s2", ok := true, error := none } := by
  refine ⟨?_, ?_, ?_⟩
  · exact (session_create_spec 7 freshDb sessOpNoCourse 42 rfl rfl rfl
      (by decide)).1 (by decide)
  · rw [(session_create_spec 7 freshDb (sessOp "s1") 1 rfl rfl rfl (by decide)).2.1
      sCourse (by decide) rfl rfl (by decide)]
    exact rfl
  · rw [(session_create_spec 7 freshDb sessOpStart 1 rfl rfl rfl (by decide)).2.2
      sCourse "2026-03-01T10:00:00Z" 1772359200 (by decide) rfl (by decide) rfl rfl
      (by decide)]
    exact rfl

/-- C5: bootstrapping an external subject id not yet known to the store
creates a User and returns `is_new = true`; a second bootstrap for the
same subject id returns `is_new = false`, resolves to the very same
User row (its id is stable), and overwrites the User's email, name and
role from the newly supplied values. -/
theorem bootstrap_twice_stable (db : Db) (uid : String)
    (e1 n1 : Option String) (r1 : String) (e2 n2 : Option String) (r2 : String)
    (hfresh : List.find? (fun u => u.firebase_uid == uid) db.current.users = none)
    (hok : storeOk db.current = true) :
    ∃ (db1 db2 : Db) (resp1 resp2 : BootstrapResponse) (u1 u2 : User),
      bootstrap db uid e1 n1 r1 = Except.ok (db1, resp1) ∧
      bootstrap db1 uid e2 n2 r2 = Except.ok (db2, resp2) ∧
      resp1.is_new_user = true ∧
      resp2.is_new_user = false ∧
      List.find? (fun u => u.firebase_uid == uid) db1.current.users = some u1 ∧
      List.find? (fun u => u.firebase_uid == uid) db2.current.users = some u2 ∧
      u2.id = u1.id ∧
      u2.email = e2 ∧ u2.name = n2 ∧ u2.role = normRole r2 := by
  have hself : (uid == uid) = true := by simp
  have hfind1 : List.find? (fun u => u.firebase_uid == uid)
      (db.current.users ++
        [{ id := db.nextUserId, firebase_uid := uid, email := e1, name := n1,
           external_id := none, department := none, profile_completed := false,
           role := normRole r1 }]) =
      some { id := db.nextUserId, firebase_uid := uid, email := e1, name := n1,
             external_id := none, department := none, profile_completed := false,
             role := normRole r1 } := by
    rw [find?_append_none _ _ _ hfresh]
    simp
  have hfind2 : List.find? (fun u => u.firebase_uid == uid)
      (db.current.users ++
        [{ id := db.nextUserId, firebase_uid := uid, email := e2, name := n2,
           external_id := none, department := none, profile_completed := false,
           role := normRole r2 }]) =
      some { id := db.nextUserId, firebase_uid := uid, email := e2, name := n2,
             external_id := none, department := none, profile_completed := false,
             role := normRole r2 } := by
    rw [find?_append_none _ _ _ hfresh]
    simp
  have hupd : updateFirst (fun x => x.firebase_uid == uid)
      (fun x => { x with email := e2, name := n2, role := normRole r2 })
      (db.current.users ++
        [{ id := db.nextUserId, firebase_uid := uid, email := e1, name := n1,
           external_id := none, department := none, profile_completed := false,
           role := normRole r1 }]) =
      db.current.users ++
        [{ id := db.nextUserId, firebase_uid := uid, email := e2, name := n2,
           external_id := none, department := none, profile_completed := false,
           role := normRole r2 }] := by
    rw [updateFirst_append_none _ _ _ _ hfresh]
    simp [updateFirst]
  refine ⟨?_, ?_, ?_, ?_, ?_, ?_, ?hA, ?hB, ?hC, ?hD, ?hE, ?hF, ?hG, ?hH, ?hI, ?hJ⟩
  case hA =>
    simp only [bootstrap, hfresh]
    rw [commitE_ok _ (by exact hok)]
    exact rfl
  case hB =>
    simp only [bootstrap, hfind1, hupd]
    rw [commitE_ok _ (by exact hok)]
    exact rfl
  case hC => rfl
  case hD => rfl
  case hE => exact hfind1
  case hF => exact hfind2
  case hG => rfl
  case hH => rfl
  case hI => rfl
  case hJ => rfl

/-- C5 witness: bootstrapping `u9` twice on the empty store, first as
"student" and then as "LECTURER": is_new true then false, stable id,
and the second call's email/name/role win. -/
theorem bootstrap_twice_stable_witness :
    ∃ (db1 db2 : Db) (resp1 resp2 : BootstrapResponse) (u1 u2 : User),
      bootstrap emptyDb "u9" (some "e") (some "n") "student" = Except.ok (db1, resp1) ∧
      bootstrap db1 "u9" (some "e2") (some "n2") "LECTURER" = Except.ok (db2, resp2) ∧
      resp1.is_new_user = true ∧
      resp2.is_new_user = false ∧
      List.find? (fun u => u.firebase_uid == "u9") db1.current.users = some u1 ∧
      List.find? (fun u => u.firebase_uid == "u9") db2.current.users = some u2 ∧
      u2.id = u1.id ∧
      u2.email = some "e2" ∧ u2.name = some "n2" ∧ u2.role = normRole "LECTURER" :=
  bootstrap_twice_stable emptyDb "u9" (some "e") (some "n") "student"
    (some "e2") (some "n2") "LECTURER" (by decide) (by decide)

/-- C3 (amended): in a batch of three attendance-create operations
whose first and third reference a session and student that already have
an Attendance row (so the upsert takes its update branch) and whose
second references a session id matching no Session row, `sync_push`
returns exactly `[ok, fail "Session not found", ok]`: the middle
failure neither aborts the batch nor changes the outcome of the
operations before or after it. -/
theorem failure_isolation_update_path (now : Int) (db : Db)
    (i1 i2 i3 e1 e2 e3 f : String) (n1 n2 : Int)
    (u : User) (stu : Student) (sess : Session) (enr : Enrollment) (att : Attendance)
    (hf : f ≠ "") (hn1 : n1 ≠ 0) (hn2 : n2 ≠ 0)
    (huser : findUserByUid db.current (Value.vstr f) = some u)
    (hstu : findStudentByUser db.current u.id = some stu)
    (hsess : findSessionById db.current n1 = some sess)
    (hsess2 : findSessionById db.current n2 = none)
    (henr : findEnrollment db.current stu.student_id sess.course_id = some enr)
    (hatt : findAttendance db.current sess.session_id stu.student_id = some att)
    (hok : storeOk db.current = true) :
    (sync_push now db
      [{ op_id := i1, entity := "attendance", op := "create", entity_id := e1,
         payload := [("student_firebase_uid", Value.vstr f), ("session_id", Value.vint n1)],
         client_ts := none },
       { op_id := i2, entity := "attendance", op := "create", entity_id := e2,
         payload := [("student_firebase_uid", Value.vstr f), ("session_id", Value.vint n2)],
         client_ts := none },
       { op_id := i3, entity := "attendance", op := "create", entity_id := e3,
         payload := [("student_firebase_uid", Value.vstr f), ("session_id", Value.vint n1)],
         client_ts := none }]).2.results =
      [{ op_id := i1, ok := true, error := none },
       { op_id := i2, ok := false, error := some "Session not found" },
       { op_id := i3, ok := true, error := none }] := by
  have h1 := processOp_attendance_update now db
    { op_id := i1, entity := "attendance", op := "create", entity_id := e1,
      payload := [("student_firebase_uid", Value.vstr f), ("session_id", Value.vint n1)],
      client_ts := none }
    f n1 u stu sess enr att rfl rfl rfl hf huser hstu rfl hn1 hsess henr hatt rfl hok
  have h2 := processOp_attendance_no_session now
    (withAttendances db
      (updateFirst (attKey sess.session_id stu.student_id)
        (setAttendanceFields
          [("student_firebase_uid", Value.vstr f), ("session_id", Value.vint n1)])
        db.current.attendances))
    { op_id := i2, entity := "attendance", op := "create", entity_id := e2,
      payload := [("student_firebase_uid", Value.vstr f), ("session_id", Value.vint n2)],
      client_ts := none }
    f n2 u stu rfl rfl rfl hf (by exact huser) (by exact hstu) rfl hn2 (by exact hsess2)
  have hatt3 : findAttendance
      (withAttendances db
        (updateFirst (attKey sess.session_id stu.student_id)
          (setAttendanceFields
            [("student_firebase_uid", Value.vstr f), ("session_id", Value.vint n1)])
          db.current.attendances)).current sess.session_id stu.student_id =
      some (setAttendanceFields
        [("student_firebase_uid", Value.vstr f), ("session_id", Value.vint n1)] att) := by
    show List.find? (attKey sess.session_id stu.student_id)
      (updateFirst (attKey sess.session_id stu.student_id)
        (setAttendanceFields
          [("student_firebase_uid", Value.vstr f), ("session_id", Value.vint n1)])
        db.current.attendances) = _
    rw [find?_updateFirst (attKey sess.session_id stu.student_id)
      (setAttendanceFields
        [("student_firebase_uid", Value.vstr f), ("session_id", Value.vint n1)])
      (fun x => rfl)]
    rw [show List.find? (attKey sess.session_id stu.student_id) db.current.attendances =
      some att from hatt]
    rfl
  have hok3 : storeOk
      (withAttendances db
        (updateFirst (attKey sess.session_id stu.student_id)
          (setAttendanceFields
            [("student_firebase_uid", Value.vstr f), ("session_id", Value.vint n1)])
          db.current.attendances)).current = true := by
    show (updateFirst (attKey sess.session_id stu.student_id)
      (setAttendanceFields
        [("student_firebase_uid", Value.vstr f), ("session_id", Value.vint n1)])
      db.current.attendances).all attendanceOk = true
    rw [all_updateFirst _ _ _
      (fun a => attendanceOk_setFields
        [("student_firebase_uid", Value.vstr f), ("session_id", Value.vint n1)] a)]
    exact hok
  have h3 := processOp_attendance_update now
    (withAttendances db
      (updateFirst (attKey sess.session_id stu.student_id)
        (setAttendanceFields
          [("student_firebase_uid", Value.vstr f), ("session_id", Value.vint n1)])
        db.current.attendances))
    { op_id := i3, entity := "attendance", op := "create", entity_id := e3,
      payload := [("student_firebase_uid", Value.vstr f), ("session_id", Value.vint n1)],
      client_ts := none }
    f n1 u stu sess enr
    (setAttendanceFields
      [("student_firebase_uid", Value.vstr f), ("session_id", Value.vint n1)] att)
    rfl rfl rfl hf (by exact huser) (by exact hstu) rfl hn1 (by exact hsess)
    (by exact henr) hatt3 rfl hok3
  simp only [sync_push, syncPushLoop, h1, h2, h3]

/-- C3 amended witness: the sample store with the committed attendance
row for (session 1, student 1), a batch [check-in session 1, check-in
session 2 (absent), check-in session 1]. -/
theorem failure_isolation_update_path_witness :
    (sync_push 0 seenDb
      [{ op_id := "p1", entity := "attendance", op := "create", entity_id := "e1",
         payload := [("student_firebase_uid", Value.vstr "uid-1"),
           ("session_id", Value.vint 1)],
         client_ts := none },
       { op_id := "q2", entity := "attendance", op := "create", entity_id := "e2",
         payload := [("student_firebase_uid", Value.vstr "uid-1"),
           ("session_id", Value.vint 2)],
         client_ts := none },
       { op_id := "p2", entity := "attendance", op := "create", entity_id := "e3",
         payload := [("student_firebase_uid", Value.vstr "uid-1"),
           ("session_id", Value.vint 1)],
         client_ts := none }]).2.results =
      [{ op_id := "p1", ok := true, error := none },
       { op_id := "q2", ok := false, error := some "Session not found" },
       { op_id := "p2", ok := true, error := none }] :=
  failure_isolation_update_path 0 seenDb "p1" "q2" "p2" "e1" "e2" "e3" "uid-1" 1 2
    sUser sStudent sSession sEnrollment sAttendance
    (by decide) (by decide) (by decide) rfl rfl rfl rfl rfl rfl (by decide)

end AttBack
